import Mathlib

/-!
Shallow embedding of the document-management backend (Node/Express/Mongoose)
for verification of its specification.  Each definition is translated from a
named source location; theorems at the end of the file settle the spec claims.
-/

namespace DMS

/-! ## Identity store (src/models/User.js) -/

/-- Role enumeration of userSchema.role (models/User.js lines 28-33). -/
inductive Role where
  | admin
  | manager
  | user
deriving DecidableEq, Repr

/-- Value stored in the password field.  bcrypt hashing is modelled
symbolically: `hashed salt v` is the bcrypt digest (with fresh salt) of the
byte string that `v` denotes.  `bcrypt.compare(entered, stored)` is true
exactly when `stored` is a one-level hash of the plaintext `entered`. -/
inductive PassVal where
  | plain (s : String)
  | hashed (salt : Nat) (v : PassVal)
deriving DecidableEq, Repr

/-- A user record (userSchema, models/User.js lines 5-60); only the fields the
verified claims touch are carried. -/
structure UserRec where
  id : String
  role : Role
  isActive : Bool
  department : String
  password : PassVal
deriving DecidableEq, Repr

/-- User.findById over the identity collection. -/
def findUser (db : List UserRec) (uid : String) : Option UserRec :=
  db.find? (fun u => u.id == uid)

/-- The pre-save password hook (models/User.js lines 63-71).  The guard of
the source checks isModified on the password field and calls next() inside
the if body, but does not return there, so the bcrypt hashing lines after
the guard run on every save, whether or not the password field was
modified.  The function returns the password value that the save
persists. -/
def userPreSavePassword (salt : Nat) (passwordModified : Bool) (password : PassVal) : PassVal :=
  -- the `!isModified` branch falls through; `passwordModified` is ignored
  -- by the source control flow, exactly as modelled here
  let _ := passwordModified
  PassVal.hashed salt password

/-- userSchema.methods.matchPassword (models/User.js lines 74-76):
bcrypt.compare of the entered plaintext against the stored value. -/
def matchPassword (entered : String) (stored : PassVal) : Bool :=
  match stored with
  | PassVal.hashed _ v => v == PassVal.plain entered
  | PassVal.plain _ => false

/-! ## Authentication middleware `protect` (src/unnamed/part_002 lines 6-52) -/

/-- Result of verifying the bearer credential: `valid uid` means
jwt.verify succeeded and decoded.id = uid; `invalid` covers a missing,
malformed or expired token (the catch branch and the no-token branch). -/
inductive TokenCheck where
  | valid (uid : String)
  | invalid
deriving DecidableEq, Repr

/-- The `protect` middleware (part_002 lines 6-52).  On `.ok u` the request
proceeds with req.user = u; on `.error msg` a 401 response is sent and no
gated handler runs.  The live user record is looked up in `db` on every
call (line 27) and its current isActive flag is checked (line 36). -/
def protect (db : List UserRec) (token : TokenCheck) : Except String UserRec :=
  match token with
  | TokenCheck.invalid => Except.error "Not authorized to access this route"
  | TokenCheck.valid uid =>
    match findUser db uid with
    | none => Except.error "No user found with this token"
    | some u =>
      if !u.isActive then Except.error "User account is deactivated"
      else Except.ok u

/-! ## JavaScript value helpers -/

/-- The string-or fallback of JavaScript: an absent or empty string falls
through to the default. -/
def jsOrStr (v : Option String) (dflt : String) : String :=
  match v with
  | none => dflt
  | some s => if s == "" then dflt else s

/-- JavaScript truthiness of an optional string: present and non-empty. -/
def truthyStr (v : Option String) : Bool :=
  match v with
  | none => false
  | some s => s != ""

/-! ## Document record (src/models/Document.js) -/

/-- The three per-document permission lists (documentSchema.permissions,
models/Document.js lines 105-118); entries are user ids. -/
structure DocPerms where
  read : List String := []
  write : List String := []
  del : List String := []
deriving DecidableEq, Repr

/-- A document record; carries the documentSchema fields the verified claims
touch (models/Document.js lines 3-136).  `del` stands for the source field
`permissions.delete`. -/
structure Doc where
  uploadedBy : String
  department : String := ""
  status : String := "pending"
  permissions : DocPerms := {}
  approvedBy : Option String := none
  approvedAt : Option Nat := none
  rejectionReason : Option String := none
  isDeleted : Bool := false
deriving DecidableEq, Repr

/-- documentSchema.methods.hasPermission (models/Document.js lines 159-171).
The uploader always passes; otherwise the list selected by the `permission`
string is consulted (`this.permissions[permission]` is undefined, hence
falsy, for any other key, so the method returns false). -/
def hasPermission (doc : Doc) (userId : String) (permission : String) : Bool :=
  if doc.uploadedBy == userId then true
  else
    match permission with
    | "read" => doc.permissions.read.contains userId
    | "write" => doc.permissions.write.contains userId
    | "delete" => doc.permissions.del.contains userId
    | _ => false

/-- The document pre-save hook (models/Document.js lines 180-185): when the
status field was modified and is now approved, approvedAt is stamped. -/
def docPreSave (statusModified : Bool) (now : Nat) (d : Doc) : Doc :=
  if statusModified && d.status == "approved" then { d with approvedAt := some now }
  else d

/-! ## Ownership gate (src/unnamed/part_002 lines 68-111) -/

/-- Decision of the checkOwnership middleware: 404, proceed, or 403. -/
inductive GateResult where
  | notFound
  | allowed
  | forbidden
deriving DecidableEq, Repr

/-- checkOwnership(Document) (part_002 lines 68-111) applied to a document
lookup result.  Admin and manager pass (line 82); the owner passes (for a
Document the ownerField chain `uploadedBy || createdBy || user` resolves to
uploadedBy, which is a required field, lines 88-89); otherwise
hasPermission with the permission string read is consulted (line 95) - that
string is the literal read regardless of the HTTP method. -/
def checkOwnership (lookup : Option Doc) (actor : UserRec) : GateResult :=
  match lookup with
  | none => GateResult.notFound
  | some doc =>
    if actor.role == Role.admin || actor.role == Role.manager then GateResult.allowed
    else if doc.uploadedBy == actor.id then GateResult.allowed
    else if hasPermission doc actor.id "read" then GateResult.allowed
    else GateResult.forbidden

/-- The three resource-scoped document operations. -/
inductive DocOp where
  | read
  | update
  | del
deriving DecidableEq, Repr

/-- Gate applied by the document routes.  GET /api/documents/:id (part_007
line 636), PUT /api/documents/:id (line 715) and DELETE /api/documents/:id
(line 765) all install the same middleware checkOwnership(Document), so the
decision does not depend on which operation is requested. -/
def docOpGate (op : DocOp) (lookup : Option Doc) (actor : UserRec) : GateResult :=
  let _ := op
  checkOwnership lookup actor

/-! ## Approval route (src/unnamed/part_007 lines 801-857) -/

/-- Outcome of PUT /api/documents/:id/approval.  `updated` carries the
document state written by document.save(). -/
inductive ApprovalOutcome where
  | forbidden
  | notFound
  | notPending (msg : String)
  | updated (d : Doc)
deriving DecidableEq, Repr

/-- PUT /api/documents/:id/approval (part_007 lines 801-857).  `decision` is
req.body.status, already constrained to approved/rejected by validateRequest
(line 804); `reason` is the optional req.body.rejectionReason.  The guard at
line 820 compares against the literal string pending and answers with the
fixed message at line 823.  On the success path status/approvedBy/approvedAt
are assigned (lines 828-830), rejectionReason only when the decision is
rejected and the reason is truthy (lines 832-834), and document.save() runs
the document pre-save hook. -/
def approvalRoute (actor : UserRec) (lookup : Option Doc) (decision : String)
    (reason : Option String) (now : Nat) : ApprovalOutcome :=
  if !(actor.role == Role.admin || actor.role == Role.manager) then ApprovalOutcome.forbidden
  else
    match lookup with
    | none => ApprovalOutcome.notFound
    | some doc =>
      if doc.status != "pending" then
        ApprovalOutcome.notPending "Document is not pending approval"
      else
        let d := { doc with status := decision, approvedBy := some actor.id,
                            approvedAt := some now }
        let d := if decision == "rejected" && truthyStr reason then
                   { d with rejectionReason := reason }
                 else d
        ApprovalOutcome.updated (docPreSave true now d)

/-- The document state persisted for the targeted id after the approval
request: only the `updated` branch reaches document.save(); every other
branch returns before mutating the record. -/
def approvalStored (actor : UserRec) (lookup : Option Doc) (decision : String)
    (reason : Option String) (now : Nat) : Option Doc :=
  match approvalRoute actor lookup decision reason now with
  | ApprovalOutcome.updated d => some d
  | _ => lookup

/-! ## Category tree (src/models/Category.js, src/routes/categories.js) -/

/-- A category record (categorySchema, models/Category.js lines 3-86); only
the fields the verified claims touch are carried. -/
structure Cat where
  id : Nat
  name : String
  slug : String := ""
  parent : Option Nat := none
  level : Nat := 0
  path : String := ""
  allowedFileTypes : List String := []
  maxFileSize : Nat := 50 * 1024 * 1024
  requiresApproval : Bool := true
  documentCount : Nat := 0
  isActive : Bool := true
deriving DecidableEq, Repr

/-- Category.findById over the category collection. -/
def findCat (store : List Cat) (cid : Nat) : Option Cat :=
  store.find? (fun c => c.id == cid)

/-- Collapse runs of consecutive dashes, as the second .replace of the slug
derivation does (pattern: one or more dashes, replaced by a single dash). -/
def collapseDashes : List Char → List Char
  | [] => []
  | c :: rest =>
    let r := collapseDashes rest
    if c == '-' then
      match r with
      | '-' :: _ => r
      | _ => c :: r
    else c :: r

/-- The slug derivation of the category pre-save hook (models/Category.js
line 92): lowercase the name, replace every character outside a-z0-9 by a
dash, collapse dash runs, and strip leading and trailing dashes. -/
def slugify (name : String) : String :=
  let lowered := name.data.map Char.toLower
  let dashed := lowered.map (fun c =>
    if ('a' ≤ c && c ≤ 'z') || ('0' ≤ c && c ≤ '9') then c else '-')
  let collapsed := collapseDashes dashed
  let trimmed := ((collapsed.dropWhile (· == '-')).reverse.dropWhile (· == '-')).reverse
  String.mk trimmed

/-- True when some other category (a different id) already holds `s` as its
slug - the findOne query of the uniqueness loop (models/Category.js
lines 99-102). -/
def slugTaken (store : List Cat) (selfId : Nat) (s : String) : Bool :=
  store.any (fun c => c.slug == s && c.id != selfId)

/-- The slug uniqueness loop (models/Category.js lines 95-112): try the base
slug, then base-1, base-2, ... until no other category holds the candidate.
`fuel` bounds the loop for termination; `store.length + 1` candidates always
contain a free one since each taken candidate pins a distinct store entry. -/
def uniqueSlugGo (store : List Cat) (selfId : Nat) (base : String) : Nat → Nat → String
  | 0, n => if n == 0 then base else base ++ "-" ++ toString n
  | fuel + 1, n =>
    let cand := if n == 0 then base else base ++ "-" ++ toString n
    if slugTaken store selfId cand then uniqueSlugGo store selfId base fuel (n + 1)
    else cand

/-- Unique slug for a category being saved, starting from the base slug. -/
def uniqueSlug (store : List Cat) (selfId : Nat) (base : String) : String :=
  uniqueSlugGo store selfId base (store.length + 1) 0

/-- First section of the category pre-save hook (models/Category.js
lines 91-113): the slug is (re)generated when the name was modified or no
slug exists yet. -/
def categorySlugStep (store : List Cat) (nameModified : Bool) (c : Cat) : Cat :=
  if nameModified || c.slug == "" then
    { c with slug := uniqueSlug store c.id (slugify c.name) }
  else c

/-- Second section of the category pre-save hook (models/Category.js
lines 116-125): level and path are derived from the parent.  When a parent
id is set and resolves, level = parent.level + 1 and path = parent.path +
"/" + slug (or just the slug when the path of the parent is empty);
when it is set but dangling, level and path are left as they are; when no
parent is set, level = 0 and path = slug. -/
def categoryPathStep (store : List Cat) (c : Cat) : Cat :=
  match c.parent with
  | some pid =>
    match findCat store pid with
    | some p =>
      { c with level := p.level + 1,
               path := if p.path != "" then p.path ++ "/" ++ c.slug else c.slug }
    | none => c
  | none => { c with level := 0, path := c.slug }

/-- The category pre-save hook (models/Category.js lines 89-128) run against
the current collection `store`: the slug section followed by the level/path
section. -/
def categoryPreSave (store : List Cat) (nameModified : Bool) (c : Cat) : Cat :=
  categoryPathStep store (categorySlugStep store nameModified c)

/-- Errors surfaced by the category create/update routes. -/
inductive CatError where
  | parentNotFound
  | ownParent
  | notFound
deriving DecidableEq, Repr

/-- POST /api/categories (routes/categories.js lines 100-176): when a parent
id is supplied its existence is checked (lines 129-137); then
Category.create persists the new node, which runs the pre-save hook.  The
fresh document has no slug yet, so the hook always derives one. -/
def createCategory (store : List Cat) (newId : Nat) (name : String)
    (parent : Option Nat) : Except CatError (List Cat) :=
  match parent with
  | some pid =>
    if (findCat store pid).isNone then Except.error CatError.parentNotFound
    else
      Except.ok (store ++ [categoryPreSave store true { id := newId, name := name, parent := some pid }])
  | none =>
    Except.ok (store ++ [categoryPreSave store true { id := newId, name := name, parent := none }])

/-- The validated body fields of PUT /api/categories/:id that the verified
claims touch (name, parent); an absent field leaves the stored value. -/
structure CatUpdate where
  name : Option String := none
  parent : Option Nat := none
deriving DecidableEq, Repr

/-- Field application of Category.findByIdAndUpdate(id, req.body): body keys
overwrite the stored fields directly; no save hook runs, so slug, level and
path keep their stored values. -/
def applyCatUpdate (c : Cat) (u : CatUpdate) : Cat :=
  { c with name := u.name.getD c.name,
           parent := match u.parent with
             | some pid => some pid
             | none => c.parent }

/-- PUT /api/categories/:id (routes/categories.js lines 181-252): 404 when
the id does not resolve; when req.body.parent is set, setting the category
as its own parent is rejected (lines 208-213) and the new parent must exist
(lines 216-222); then findByIdAndUpdate applies the body - it triggers no
pre-save hook, so slug/level/path are not re-derived. -/
def updateCategory (store : List Cat) (cid : Nat) (u : CatUpdate) :
    Except CatError (List Cat) :=
  match findCat store cid with
  | none => Except.error CatError.notFound
  | some _ =>
    match u.parent with
    | some pid =>
      if pid == cid then Except.error CatError.ownParent
      else if (findCat store pid).isNone then Except.error CatError.parentNotFound
      else Except.ok (store.map (fun c => if c.id == cid then applyCatUpdate c u else c))
    | none =>
      Except.ok (store.map (fun c => if c.id == cid then applyCatUpdate c u else c))

/-! ## Upload pipeline (src/middleware/upload.js, src/unnamed/part_007 lines 385-519) -/

/-- True when `pat` occurs at the start of `cs`. -/
def seqStarts : List Char → List Char → Bool
  | [], _ => true
  | _ :: _, [] => false
  | p :: ps, c :: rest => p == c && seqStarts ps rest

/-- True when `pat` occurs somewhere inside `cs`. -/
def seqIn (pat cs : List Char) : Bool :=
  match cs with
  | [] => pat.isEmpty
  | _ :: rest => seqStarts pat cs || seqIn pat rest

/-- True when `pat` occurs as a substring of `s`. -/
def strContains (s pat : String) : Bool :=
  seqIn pat.data s.data

/-- Index of the last dot in the character list, if any. -/
def lastDotIdx : List Char → Nat → Option Nat → Option Nat
  | [], _, best => best
  | c :: rest, idx, best =>
    lastDotIdx rest (idx + 1) (if c == '.' then some idx else best)

/-- path.extname(name).toLowerCase().substring(1): the lowercased characters
after the last dot of the file name, or the empty string when the name has
no dot or only a leading dot (original names carry no directory part). -/
def extLower (name : String) : String :=
  match lastDotIdx name.data 0 none with
  | none => ""
  | some 0 => ""
  | some i => String.mk ((name.data.drop (i + 1)).map Char.toLower)

/-- The default global allowed-extension list of the multer fileFilter
(middleware/upload.js lines 43-45), used when the ALLOWED_FILE_TYPES
environment variable is absent. -/
def defaultAllowedFileTypes : List String :=
  ["pdf", "doc", "docx", "xls", "xlsx", "ppt", "pptx", "txt",
   "jpg", "jpeg", "png", "gif"]

/-- The incoming file of a single upload: multer metadata plus the sha256
digest that generateChecksum (middleware/upload.js lines 151-160) computes
over the stored bytes. -/
structure FileUpload where
  originalname : String
  size : Nat
  checksum : String := ""
deriving DecidableEq, Repr

/-- A version record (documentVersionSchema); the fields the verified
claims touch. -/
structure VersionRec where
  version : Nat
  checksum : String
  uploadedBy : String
deriving DecidableEq, Repr

/-- Errors of the single-file upload path, in the order the stages run:
the multer fileFilter (middleware/upload.js lines 41-54) rejects before the
temporary file is written; the handler gates (part_007 lines 420-448) each
delete the already-written temporary file before answering. -/
inductive UploadError where
  | globalFileType (msg : String)
  | categoryNotFound
  | categoryFileType (msg : String)
  | fileTooLarge (msg : String)
deriving DecidableEq, Repr

/-- Observable outcome of one POST /api/documents request. -/
structure UploadResult where
  error : Option UploadError
  tempFileWritten : Bool
  tempFileDeleted : Bool
  docCreated : Option Doc
  versionCreated : Option VersionRec
  newCategoryCount : Option Nat
deriving DecidableEq, Repr

/-- POST /api/documents for a single file (part_007 lines 385-519), composed
with the multer fileFilter that runs before the temporary file is stored
(middleware/upload.js lines 41-64).  Stages, in source order: global
extension filter; Category.findById with cleanup on miss (lines 420-428);
category extension check with cleanup (lines 430-439); category size check
with cleanup (lines 442-448); Document.create (lines 457-472, running the
document pre-save hook), DocumentVersion.create for version 1
(lines 475-489) and the category documentCount increment (lines 491-493). -/
def processUpload (globalAllowed : List String) (cats : List Cat) (actor : UserRec)
    (categoryId : Nat) (file : FileUpload) (suppliedDepartment : Option String)
    (now : Nat) : UploadResult :=
  let ext := extLower file.originalname
  if !(globalAllowed.contains ext) then
    { error := some (UploadError.globalFileType
        ("File type ." ++ ext ++ " is not allowed. Allowed types: " ++
         String.intercalate ", " globalAllowed)),
      tempFileWritten := false, tempFileDeleted := false,
      docCreated := none, versionCreated := none, newCategoryCount := none }
  else
    match findCat cats categoryId with
    | none =>
      { error := some UploadError.categoryNotFound,
        tempFileWritten := true, tempFileDeleted := true,
        docCreated := none, versionCreated := none, newCategoryCount := none }
    | some cat =>
      if cat.allowedFileTypes.length > 0 && !(cat.allowedFileTypes.contains ext) then
        { error := some (UploadError.categoryFileType
            ("File type ." ++ ext ++ " not allowed in this category. Allowed types: " ++
             String.intercalate ", " cat.allowedFileTypes)),
          tempFileWritten := true, tempFileDeleted := true,
          docCreated := none, versionCreated := none, newCategoryCount := none }
      else if file.size > cat.maxFileSize then
        { error := some (UploadError.fileTooLarge
            ("File size exceeds category limit of " ++
             toString (cat.maxFileSize / 1024 / 1024) ++ "MB")),
          tempFileWritten := true, tempFileDeleted := true,
          docCreated := none, versionCreated := none, newCategoryCount := none }
      else
        let doc : Doc :=
          { uploadedBy := actor.id,
            department := jsOrStr suppliedDepartment actor.department,
            status := if cat.requiresApproval then "pending" else "approved" }
        { error := none,
          tempFileWritten := true, tempFileDeleted := false,
          docCreated := some (docPreSave true now doc),
          versionCreated := some { version := 1, checksum := file.checksum,
                                   uploadedBy := actor.id },
          newCategoryCount := some (cat.documentCount + 1) }

/-! ## Audit middleware (src/unnamed/part_002 lines 114-175) -/

/-- An audit entry as assembled by the auditLog middleware before
AuditLog.logAction persists it. -/
structure LogEntry where
  userId : String
  action : String
  resource : String
  resourceId : String
  status : String
  errorMessage : Option String
deriving DecidableEq, Repr

/-- The finish handler installed by auditLog(action, resource) (part_002
lines 130-171).  `reqUser` is req.user (absent on unauthenticated routes),
`paramsId` and `bodyId` are req.params.id and req.body.id.  status is
failure for response codes of 400 and above (line 132); unauthenticated
requests are skipped except for the login and user_create actions
(lines 135-137); then userId is req.user.id or null and resourceId is
req.params.id or req.body.id or req.user.id or the string system
(lines 140-141); the entry is assembled and persisted only when both
userId and resourceId are truthy (line 143). -/
def auditOnFinish (action : String) (resource : String) (reqUser : Option UserRec)
    (paramsId bodyId : Option String) (statusCode : Nat)
    (responseError : Option String) : Option LogEntry :=
  let status := if statusCode ≥ 400 then "failure" else "success"
  if reqUser.isNone && !(["login", "user_create"].contains action) then none
  else
    let userId : Option String := reqUser.map (fun u => u.id)
    let resourceId : String :=
      jsOrStr paramsId (jsOrStr bodyId (jsOrStr (reqUser.map (fun u => u.id)) "system"))
    if truthyStr userId && resourceId != "" then
      some { userId := userId.getD "", action := action, resource := resource,
             resourceId := resourceId, status := status,
             errorMessage := if status == "failure" then responseError else none }
    else none

/-! ## Claim theorems -/

/-- Observable classification of a protect outcome: true when the middleware
answers 401 and the gated handler never runs. -/
def isAuthError : Except String UserRec → Bool
  | Except.error _ => true
  | Except.ok _ => false

/-- C9: a request carrying a validly signed, unexpired credential whose
identity record has active flag false, or no longer exists, is rejected
with an authentication error before any gated operation runs; protect
re-fetches the live record from the identity store and checks its current
active flag. -/
theorem c9_inactive_or_missing_identity_rejected (db : List UserRec) (uid : String)
    (h : findUser db uid = none ∨ ∃ u, findUser db uid = some u ∧ u.isActive = false) :
    isAuthError (protect db (TokenCheck.valid uid)) = true := by
  rcases h with h | ⟨u, hu, hi⟩
  · simp [protect, h, isAuthError]
  · simp [protect, hu, hi, isAuthError]

/-- Concrete deactivated user for the C9 witness. -/
def c9User : UserRec :=
  { id := "u-inactive", role := Role.user, isActive := false, department := "",
    password := PassVal.plain "pw" }

/-- C9 witness: the theorem applied to a store holding one deactivated user
whose still-valid credential is presented. -/
theorem c9_witness :
    isAuthError (protect [c9User] (TokenCheck.valid "u-inactive")) = true :=
  c9_inactive_or_missing_identity_rejected [c9User] "u-inactive"
    (Or.inr ⟨c9User, by decide, by decide⟩)

/-- C10: evaluation of the user pre-save hook at the failing input.  After
registration the stored value is a single hash of the plaintext and
matchPassword succeeds; the login handler then saves lastLogin without
touching the password, yet the hook re-hashes the stored hash (its guard
calls next() without returning), so matchPassword with the original
password returns false afterwards - the claim that the stored hash is
unchanged is right about the intent and wrong about the code. -/
theorem c10_lastlogin_save_breaks_password :
    matchPassword "secret1" (userPreSavePassword 1 true (PassVal.plain "secret1")) = true ∧
    matchPassword "secret1"
      (userPreSavePassword 2 false
        (userPreSavePassword 1 true (PassVal.plain "secret1"))) = false := by
  decide

/-- C2: evaluation of the audit middleware at the failing input.  A login
attempt with an email matching no user answers 401 with no req.user; the
action login is in the unauthenticated exception list, but the subsequent
userId guard (part_002 line 143) is null for exactly these requests, so no
audit entry is appended at all - not one entry with outcome failure as the
claim states. -/
theorem c2_failed_login_appends_no_entry :
    auditOnFinish "login" "user" none none none 401 (some "Invalid credentials") = none := by
  decide

/-- Concrete document and actor refuting C1: the actor is a plain user, not
the uploader, absent from permissions.delete but present in
permissions.read. -/
def c1Doc : Doc :=
  { uploadedBy := "owner-1", permissions := { read := ["eve"], write := [], del := [] } }

/-- Concrete actor for the C1 counterexample. -/
def c1Actor : UserRec :=
  { id := "eve", role := Role.user, isActive := true, department := "",
    password := PassVal.plain "pw" }

/-- C1 counterexample: a delete is allowed for an actor who is neither
admin, manager nor uploader and is not in permissions.delete - the gate
consults permissions.read for every operation, so the claimed equivalence
with the per-capability list fails. -/
theorem c1_counterexample :
    docOpGate DocOp.del (some c1Doc) c1Actor = GateResult.allowed ∧
    c1Actor.role = Role.user ∧
    c1Doc.uploadedBy ≠ c1Actor.id ∧
    c1Doc.permissions.del.contains c1Actor.id = false := by
  decide

/-- C1 amended: for every resource-scoped document operation (read, update,
delete) by an actor who is neither admin nor manager nor the uploader, the
operation is allowed if and only if the id of the actor is in the
permissions.read list of the document - the same read list gates all three
operations. -/
theorem c1_read_list_gates_every_op (op : DocOp) (doc : Doc) (actor : UserRec)
    (hrole : actor.role = Role.user) (howner : doc.uploadedBy ≠ actor.id) :
    docOpGate op (some doc) actor = GateResult.allowed ↔
      doc.permissions.read.contains actor.id = true := by
  have h1 : (actor.role == Role.admin || actor.role == Role.manager) = false := by
    simp [hrole]
  have h2 : (doc.uploadedBy == actor.id) = false := by
    simp [howner]
  cases hc : doc.permissions.read.contains actor.id <;>
    simp [docOpGate, checkOwnership, hasPermission, h1, h2, hc] <;>
    simpa using hc

/-- Concrete document for the C1 amended witness. -/
def c1wDoc : Doc :=
  { uploadedBy := "owner-2", permissions := { read := ["wren"], write := [], del := [] } }

/-- Concrete actor for the C1 amended witness. -/
def c1wActor : UserRec :=
  { id := "wren", role := Role.user, isActive := true, department := "",
    password := PassVal.plain "pw" }

/-- C1 amended witness: the equivalence instantiated at an update by a plain
user who appears only in the read list. -/
theorem c1_amended_witness :
    docOpGate DocOp.update (some c1wDoc) c1wActor = GateResult.allowed ↔
      c1wDoc.permissions.read.contains c1wActor.id = true :=
  c1_read_list_gates_every_op DocOp.update c1wDoc c1wActor (by decide) (by decide)

/-- Concrete admin actor for the C5 counterexample. -/
def c5Admin : UserRec :=
  { id := "adm-5", role := Role.admin, isActive := true, department := "",
    password := PassVal.plain "pw" }

/-- Concrete already-rejected document for the C5 counterexample. -/
def c5Doc : Doc := { uploadedBy := "owner-5", status := "rejected" }

/-- C5 counterexample: an approval attempt on a rejected document fails with
the fixed message Document is not pending approval, which does not name the
current status (the substring rejected does not occur in it); the claim that
the error names the current status fails. -/
theorem c5_counterexample :
    approvalRoute c5Admin (some c5Doc) "approved" none 10 =
      ApprovalOutcome.notPending "Document is not pending approval" ∧
    strContains "Document is not pending approval" c5Doc.status = false := by
  decide

/-- C5 amended: an approval or rejection request on a document whose status
is not pending fails with the fixed conflict message Document is not pending
approval (which does not name the current status), the stored document is
unchanged, and in particular approval or rejection succeeds only from
status pending. -/
theorem c5_nonpending_conflict_unchanged (actor : UserRec) (doc : Doc)
    (decision : String) (reason : Option String) (now : Nat)
    (hrole : actor.role = Role.admin ∨ actor.role = Role.manager)
    (hnp : doc.status ≠ "pending") :
    approvalRoute actor (some doc) decision reason now =
      ApprovalOutcome.notPending "Document is not pending approval" ∧
    approvalStored actor (some doc) decision reason now = some doc := by
  have h1 : (actor.role == Role.admin || actor.role == Role.manager) = true := by
    rcases hrole with h | h <;> simp [h]
  have h2 : (doc.status != "pending") = true := by simp [hnp]
  constructor
  · simp [approvalRoute, h1, h2]
  · simp [approvalStored, approvalRoute, h1, h2]

/-- Concrete manager actor for the C5 amended witness. -/
def c5wManager : UserRec :=
  { id := "mgr-5", role := Role.manager, isActive := true, department := "",
    password := PassVal.plain "pw" }

/-- Concrete already-approved document for the C5 amended witness. -/
def c5wDoc : Doc := { uploadedBy := "owner-5w", status := "approved" }

/-- C5 amended witness: the theorem instantiated at a manager re-approving
an already approved document. -/
theorem c5_amended_witness :
    approvalRoute c5wManager (some c5wDoc) "approved" none 3 =
      ApprovalOutcome.notPending "Document is not pending approval" ∧
    approvalStored c5wManager (some c5wDoc) "approved" none 3 = some c5wDoc :=
  c5_nonpending_conflict_unchanged c5wManager c5wDoc "approved" none 3
    (Or.inr (by decide)) (by decide)

/-- Concrete admin actor for the C6 counterexample. -/
def c6Admin : UserRec :=
  { id := "adm-6", role := Role.admin, isActive := true, department := "",
    password := PassVal.plain "pw" }

/-- Concrete pending document for the C6 counterexample. -/
def c6Doc : Doc := { uploadedBy := "owner-6", status := "pending" }

/-- The document persisted by a successful approval request, none when the
request did not reach document.save(). -/
def updatedDoc : ApprovalOutcome → Option Doc
  | ApprovalOutcome.updated d => some d
  | _ => none

/-- C6 counterexample: a rejection of a pending document with no reason at
all succeeds (rejectionReason is validated as optional and only assigned
when truthy), and the persisted record carries no rejection reason - the
claim that the request fails without a non-empty reason fails. -/
theorem c6_counterexample :
    updatedDoc (approvalRoute c6Admin (some c6Doc) "rejected" none 7) =
      some { uploadedBy := "owner-6", status := "rejected",
             approvedBy := some "adm-6", approvedAt := some 7,
             rejectionReason := none } := by
  decide

/-- C6 amended: a rejection of a pending document by an admin or manager
always succeeds, with or without a reason; on success the approver reference
and approval timestamp are set, and the rejection reason is stored only when
a non-empty reason string was supplied, otherwise it keeps its prior
value. -/
theorem c6_rejection_reason_optional (actor : UserRec) (doc : Doc)
    (reason : Option String) (now : Nat)
    (hrole : actor.role = Role.admin ∨ actor.role = Role.manager)
    (hp : doc.status = "pending") :
    Option.map Doc.status
      (updatedDoc (approvalRoute actor (some doc) "rejected" reason now)) =
        some "rejected" ∧
    Option.map Doc.approvedBy
      (updatedDoc (approvalRoute actor (some doc) "rejected" reason now)) =
        some (some actor.id) ∧
    Option.map Doc.approvedAt
      (updatedDoc (approvalRoute actor (some doc) "rejected" reason now)) =
        some (some now) ∧
    Option.map Doc.rejectionReason
      (updatedDoc (approvalRoute actor (some doc) "rejected" reason now)) =
        some (if truthyStr reason then reason else doc.rejectionReason) := by
  have h1 : (actor.role == Role.admin || actor.role == Role.manager) = true := by
    rcases hrole with h | h <;> simp [h]
  have h2 : (doc.status != "pending") = false := by simp [hp]
  cases ht : truthyStr reason
  · have hd : approvalRoute actor (some doc) "rejected" reason now =
        ApprovalOutcome.updated
          { doc with status := "rejected", approvedBy := some actor.id,
                     approvedAt := some now } := by
      simp [approvalRoute, h1, h2, ht, docPreSave]
    simp [hd, updatedDoc, ht]
  · have hd : approvalRoute actor (some doc) "rejected" reason now =
        ApprovalOutcome.updated
          { doc with status := "rejected", approvedBy := some actor.id,
                     approvedAt := some now, rejectionReason := reason } := by
      simp [approvalRoute, h1, h2, ht, docPreSave]
    simp [hd, updatedDoc, ht]

/-- Concrete manager actor for the C6 amended witness. -/
def c6wManager : UserRec :=
  { id := "mgr-6", role := Role.manager, isActive := true, department := "",
    password := PassVal.plain "pw" }

/-- Concrete pending document for the C6 amended witness. -/
def c6wDoc : Doc := { uploadedBy := "owner-6w", status := "pending" }

/-- C6 amended witness: the theorem instantiated at a rejection carrying a
non-empty reason. -/
theorem c6_amended_witness :
    Option.map Doc.status
      (updatedDoc (approvalRoute c6wManager (some c6wDoc) "rejected"
        (some "too blurry") 9)) = some "rejected" ∧
    Option.map Doc.approvedBy
      (updatedDoc (approvalRoute c6wManager (some c6wDoc) "rejected"
        (some "too blurry") 9)) = some (some c6wManager.id) ∧
    Option.map Doc.approvedAt
      (updatedDoc (approvalRoute c6wManager (some c6wDoc) "rejected"
        (some "too blurry") 9)) = some (some 9) ∧
    Option.map Doc.rejectionReason
      (updatedDoc (approvalRoute c6wManager (some c6wDoc) "rejected"
        (some "too blurry") 9)) =
      some (if truthyStr (some "too blurry") then some "too blurry"
            else c6wDoc.rejectionReason) :=
  c6_rejection_reason_optional c6wManager c6wDoc (some "too blurry") 9
    (Or.inr (by decide)) (by decide)

/-- The category store after: create root a (id 0), create root b (id 1),
create child c (id 2) under a, then reparent c under b through the update
route.  Each create runs the pre-save hook; the update runs
findByIdAndUpdate, which does not. -/
def c3Store : List Cat :=
  match createCategory [] 0 "a" none with
  | Except.ok s1 =>
    match createCategory s1 1 "b" none with
    | Except.ok s2 =>
      match createCategory s2 2 "c" (some 0) with
      | Except.ok s3 =>
        match updateCategory s3 2 { parent := some 1 } with
        | Except.ok s4 => s4
        | Except.error _ => []
      | Except.error _ => []
    | Except.error _ => []
  | Except.error _ => []

/-- C3 counterexample: after creating roots a and b and child c under a,
then moving c under b through the category update route, category c has
parent b but path a/c, while path(parent) + "/" + slug = b/c - the claimed
invariant fails after this create/update sequence because findByIdAndUpdate
re-derives nothing. -/
theorem c3_counterexample :
    findCat c3Store 2 =
      some { id := 2, name := "c", slug := "c", parent := some 1,
             level := 1, path := "a/c" } ∧
    findCat c3Store 1 =
      some { id := 1, name := "b", slug := "b", parent := none,
             level := 0, path := "b" } ∧
    ("a/c" : String) ≠ "b" ++ "/" ++ "c" :=
  ⟨rfl, rfl, by decide⟩

/-- findCat commutes with an id-preserving rewrite of the store. -/
theorem findCat_map_of_id_eq (store : List Cat) (cid : Nat) (f : Cat → Cat)
    (hid : ∀ x, (f x).id = x.id) :
    findCat (store.map f) cid = (findCat store cid).map f := by
  induction store with
  | nil => rfl
  | cons a t ih =>
    simp only [findCat, List.map_cons, List.find?] at *
    rw [hid a]
    cases h : (a.id == cid) <;> simp [h, ih]

/-- C3 amended: at save time (creation) the pre-save hook derives
level(C) = level(parent(C)) + 1 and path(C) = path(parent(C)) + "/" +
slug(C) when the parent resolves and has a non-empty path, and level 0 with
path = slug for roots; but the category update route does not re-derive
slug, level or path when the name or parent changes - findByIdAndUpdate
bypasses the pre-save hook and leaves all three unchanged, so the path and
level invariant is not maintained across updates. -/
theorem c3_create_derives_update_does_not :
    (∀ (store : List Cat) (nm : Bool) (c : Cat) (pid : Nat) (p : Cat),
      c.parent = some pid → findCat store pid = some p → p.path ≠ "" →
      (categoryPreSave store nm c).level = p.level + 1 ∧
      (categoryPreSave store nm c).path =
        p.path ++ "/" ++ (categoryPreSave store nm c).slug) ∧
    (∀ (store : List Cat) (nm : Bool) (c : Cat), c.parent = none →
      (categoryPreSave store nm c).level = 0 ∧
      (categoryPreSave store nm c).path = (categoryPreSave store nm c).slug) ∧
    (∀ (store store2 : List Cat) (cid : Nat) (u : CatUpdate) (c c2 : Cat),
      updateCategory store cid u = Except.ok store2 →
      findCat store cid = some c → findCat store2 cid = some c2 →
      c2.slug = c.slug ∧ c2.level = c.level ∧ c2.path = c.path) := by
  refine ⟨?_, ?_, ?_⟩
  · intro store nm c pid p hpar hfind hpp
    have hsp : (categorySlugStep store nm c).parent = some pid := by
      unfold categorySlugStep
      split <;> simpa using hpar
    have hpp2 : (p.path != "") = true := by simpa using hpp
    constructor <;>
      simp [categoryPreSave, categoryPathStep, hsp, hfind, hpp2]
  · intro store nm c hpar
    have hsp : (categorySlugStep store nm c).parent = none := by
      unfold categorySlugStep
      split <;> simpa using hpar
    constructor <;> simp [categoryPreSave, categoryPathStep, hsp]
  · intro store store2 cid u c c2 hupd hfind hfind2
    have hidf : ∀ x : Cat,
        ((if x.id = cid then applyCatUpdate x u else x)).id = x.id := by
      intro x
      split <;> simp [applyCatUpdate]
    have hfind' : store.find? (fun u : Cat => u.id == cid) = some c := hfind
    have hsel' := List.find?_some hfind'
    have hsel : c.id = cid := by simpa using hsel'
    have hstore2 :
        store2 = store.map (fun x => if x.id = cid then applyCatUpdate x u else x) := by
      cases hu : u.parent with
      | none =>
        simp [updateCategory, hfind, hu] at hupd
        exact hupd.symm
      | some pid =>
        by_cases hpc : (pid == cid) = true
        · simp [updateCategory, hfind, hu, hpc] at hupd
        · by_cases hpf : (findCat store pid).isNone = true
          · simp [updateCategory, hfind, hu, hpc, hpf] at hupd
          · simp [updateCategory, hfind, hu, hpc, hpf] at hupd
            exact hupd.symm
    have hmap := findCat_map_of_id_eq store cid
      (fun x => if x.id = cid then applyCatUpdate x u else x) hidf
    rw [hstore2, hmap, hfind] at hfind2
    simp [hsel, applyCatUpdate] at hfind2
    subst hfind2
    simp [applyCatUpdate]

/-- Concrete root category for the C3 amended witness. -/
def c3wRoot : Cat :=
  { id := 0, name := "r", slug := "r", parent := none, level := 0, path := "r" }

/-- One-root store for the C3 amended witness. -/
def c3wStore : List Cat := [c3wRoot]

/-- Fresh unsaved child (no slug yet) for the C3 amended witness. -/
def c3wChild : Cat := { id := 1, name := "k", parent := some 0 }

/-- Fresh unsaved root for the C3 amended witness. -/
def c3wFresh : Cat := { id := 5, name := "q" }

/-- The record stored after renaming the witness root through the update
route. -/
def c3wUpdated : Cat := { c3wRoot with name := "zz" }

/-- C3 amended witness: the three parts of the theorem instantiated at a
save of a child under a root, a save of a fresh root, and a rename through
the update route. -/
theorem c3_amended_witness :
    ((categoryPreSave c3wStore true c3wChild).level = c3wRoot.level + 1 ∧
     (categoryPreSave c3wStore true c3wChild).path =
       c3wRoot.path ++ "/" ++ (categoryPreSave c3wStore true c3wChild).slug) ∧
    ((categoryPreSave [] true c3wFresh).level = 0 ∧
     (categoryPreSave [] true c3wFresh).path = (categoryPreSave [] true c3wFresh).slug) ∧
    (c3wUpdated.slug = c3wRoot.slug ∧ c3wUpdated.level = c3wRoot.level ∧
     c3wUpdated.path = c3wRoot.path) :=
  ⟨c3_create_derives_update_does_not.1 c3wStore true c3wChild 0 c3wRoot rfl rfl
     (by decide),
   c3_create_derives_update_does_not.2.1 [] true c3wFresh rfl,
   c3_create_derives_update_does_not.2.2 c3wStore [c3wUpdated] 0
     { name := some "zz" } c3wRoot c3wUpdated rfl rfl rfl⟩

/-- True exactly for a rejection raised by the category-level extension
check of the upload route. -/
def isCategoryTypeError : Option UploadError → Bool
  | some (UploadError.categoryFileType _) => true
  | _ => false

/-- Concrete category with an empty allowedFileTypes list for the C4
counterexample. -/
def c4Cat : Cat :=
  { id := 0, name := "open", slug := "open", path := "open", allowedFileTypes := [] }

/-- Concrete uploader for the C4 counterexample. -/
def c4Actor : UserRec :=
  { id := "up-4", role := Role.user, isActive := true, department := "ops",
    password := PassVal.plain "pw" }

/-- Concrete payload with a disallowed extension for the C4
counterexample. -/
def c4File : FileUpload := { originalname := "payload.exe", size := 10 }

/-- C4 counterexample: an upload of a .exe payload into a category whose
allowedFileTypes is empty is still rejected because of the extension of the
file - the global multer fileFilter applies its own allowed-extension list
before the category is even consulted, so the claim that no extension
restriction applies fails. -/
theorem c4_counterexample :
    c4Cat.allowedFileTypes = [] ∧
    (processUpload defaultAllowedFileTypes [c4Cat] c4Actor 0 c4File none 0).error =
      some (UploadError.globalFileType
        ("File type .exe is not allowed. Allowed types: " ++
         String.intercalate ", " defaultAllowedFileTypes)) := by
  decide

/-- C4 amended: when the allowedFileTypes list of the target category is
empty, the category-level extension check never rejects the upload; an
extension can still be rejected, but only by the global fileFilter list of
the upload middleware, which applies before the category is consulted. -/
theorem c4_empty_list_no_category_extension_reject (globalAllowed : List String)
    (cats : List Cat) (actor : UserRec) (catId : Nat) (file : FileUpload)
    (dept : Option String) (now : Nat) (cat : Cat)
    (hfind : findCat cats catId = some cat)
    (hempty : cat.allowedFileTypes = []) :
    isCategoryTypeError
      (processUpload globalAllowed cats actor catId file dept now).error = false := by
  cases hg : globalAllowed.contains (extLower file.originalname)
  · have hg' : extLower file.originalname ∉ globalAllowed := by simpa using hg
    simp [processUpload, hg', isCategoryTypeError]
  · have hg' : extLower file.originalname ∈ globalAllowed := by simpa using hg
    by_cases hs : file.size > cat.maxFileSize
    · simp [processUpload, hg', hfind, hempty, hs, isCategoryTypeError]
    · simp [processUpload, hg', hfind, hempty, hs, isCategoryTypeError]

/-- Concrete unrestricted category for the C4 amended witness. -/
def c4wCat : Cat :=
  { id := 3, name := "free", slug := "free", path := "free", allowedFileTypes := [] }

/-- Concrete uploader for the C4 amended witness. -/
def c4wActor : UserRec :=
  { id := "up-4w", role := Role.user, isActive := true, department := "ops",
    password := PassVal.plain "pw" }

/-- Concrete allowed payload for the C4 amended witness. -/
def c4wFile : FileUpload := { originalname := "notes.txt", size := 10 }

/-- C4 amended witness: the theorem instantiated at a .txt upload into the
unrestricted category. -/
theorem c4_amended_witness :
    isCategoryTypeError
      (processUpload defaultAllowedFileTypes [c4wCat] c4wActor 3 c4wFile none 0).error =
      false :=
  c4_empty_list_no_category_extension_reject defaultAllowedFileTypes [c4wCat]
    c4wActor 3 c4wFile none 0 c4wCat rfl rfl

/-- C7: when the allowedFileTypes of the target category is non-empty and
does not contain the lowercase extension of the payload (and the payload
passed the global filter, so its temporary file is already on disk), the
upload fails with the constraint error listing the allowed extensions of
the category, no Document and no Version record is created, the category
counter is untouched, and the temporary file is deleted. -/
theorem c7_category_type_reject_cleanup (globalAllowed : List String)
    (cats : List Cat) (actor : UserRec) (catId : Nat) (file : FileUpload)
    (dept : Option String) (now : Nat) (cat : Cat)
    (hglob : globalAllowed.contains (extLower file.originalname) = true)
    (hfind : findCat cats catId = some cat)
    (hne : cat.allowedFileTypes ≠ [])
    (hext : cat.allowedFileTypes.contains (extLower file.originalname) = false) :
    processUpload globalAllowed cats actor catId file dept now =
      { error := some (UploadError.categoryFileType
          ("File type ." ++ extLower file.originalname ++
           " not allowed in this category. Allowed types: " ++
           String.intercalate ", " cat.allowedFileTypes)),
        tempFileWritten := true, tempFileDeleted := true,
        docCreated := none, versionCreated := none, newCategoryCount := none } := by
  have hg' : extLower file.originalname ∈ globalAllowed := by simpa using hglob
  have hext' : extLower file.originalname ∉ cat.allowedFileTypes := by simpa using hext
  have hlen : 0 < cat.allowedFileTypes.length := List.length_pos.mpr hne
  simp [processUpload, hg', hfind, hlen, hext']

/-- Concrete pdf-only category for the C7 witness. -/
def c7wCat : Cat :=
  { id := 0, name := "pdfonly", slug := "pdfonly", path := "pdfonly",
    allowedFileTypes := ["pdf"] }

/-- Concrete uploader for the C7 witness. -/
def c7wActor : UserRec :=
  { id := "up-7", role := Role.user, isActive := true, department := "ops",
    password := PassVal.plain "pw" }

/-- Concrete txt payload for the C7 witness. -/
def c7wFile : FileUpload := { originalname := "notes.txt", size := 5 }

/-- C7 witness: the theorem instantiated at a .txt upload into the pdf-only
category. -/
theorem c7_witness :
    processUpload defaultAllowedFileTypes [c7wCat] c7wActor 0 c7wFile none 0 =
      { error := some (UploadError.categoryFileType
          ("File type ." ++ extLower c7wFile.originalname ++
           " not allowed in this category. Allowed types: " ++
           String.intercalate ", " c7wCat.allowedFileTypes)),
        tempFileWritten := true, tempFileDeleted := true,
        docCreated := none, versionCreated := none, newCategoryCount := none } :=
  c7_category_type_reject_cleanup defaultAllowedFileTypes [c7wCat] c7wActor 0
    c7wFile none 0 c7wCat (by decide) rfl (by decide) (by decide)

/-- C8: for every successful initial upload (one that created a Document
record), the status of the created record is pending exactly when the
requiresApproval flag of the target category is true and approved
otherwise, and its department is the supplied department when a non-empty
one was given, else the department of the uploading actor (jsOrStr captures
the department-or-fallback of part_007 line 469). -/
theorem c8_upload_status_and_department (globalAllowed : List String)
    (cats : List Cat) (actor : UserRec) (catId : Nat) (file : FileUpload)
    (dept : Option String) (now : Nat) (cat : Cat) (doc : Doc)
    (hfind : findCat cats catId = some cat)
    (hdoc : (processUpload globalAllowed cats actor catId file dept now).docCreated =
      some doc) :
    (cat.requiresApproval = true → doc.status = "pending") ∧
    (cat.requiresApproval = false → doc.status = "approved") ∧
    doc.department = jsOrStr dept actor.department := by
  cases hg : globalAllowed.contains (extLower file.originalname)
  · have hg' : extLower file.originalname ∉ globalAllowed := by simpa using hg
    simp [processUpload, hg'] at hdoc
  · have hg' : extLower file.originalname ∈ globalAllowed := by simpa using hg
    by_cases hcat : 0 < cat.allowedFileTypes.length ∧
        extLower file.originalname ∉ cat.allowedFileTypes
    · simp [processUpload, hg', hfind, hcat] at hdoc
    · by_cases hs : file.size > cat.maxFileSize
      · simp [processUpload, hg', hfind, hcat, hs] at hdoc
      · cases hra : cat.requiresApproval
        · simp [processUpload, hg', hfind, hcat, hs, hra, docPreSave] at hdoc
          subst hdoc
          simp
        · simp [processUpload, hg', hfind, hcat, hs, hra, docPreSave] at hdoc
          subst hdoc
          simp

/-- Concrete no-approval category for the C8 witness. -/
def c8wCat : Cat :=
  { id := 0, name := "w", slug := "w", path := "w", requiresApproval := false }

/-- Concrete uploader for the C8 witness. -/
def c8wActor : UserRec :=
  { id := "up-8", role := Role.user, isActive := true, department := "eng",
    password := PassVal.plain "pw" }

/-- Concrete pdf payload for the C8 witness. -/
def c8wFile : FileUpload := { originalname := "a.pdf", size := 1 }

/-- The document record the C8 witness upload creates. -/
def c8wDoc : Doc :=
  { uploadedBy := "up-8", department := "sales", status := "approved",
    approvedAt := some 3 }

/-- C8 witness: the theorem instantiated at an upload with a supplied
department into a category that requires no approval. -/
theorem c8_witness :
    (c8wCat.requiresApproval = true → c8wDoc.status = "pending") ∧
    (c8wCat.requiresApproval = false → c8wDoc.status = "approved") ∧
    c8wDoc.department = jsOrStr (some "sales") c8wActor.department :=
  c8_upload_status_and_department defaultAllowedFileTypes [c8wCat] c8wActor 0
    c8wFile (some "sales") 3 c8wCat c8wDoc rfl (by decide)

end DMS
